import Mathlib

/-
Shallow embedding of the domain-gating HTTP/CONNECT proxy
(NetworkProxy in the repository's proxy source file).

The embedding models:
  * the decision map (domain -> decision string) as heap-allocated
    mutable maps, so that Go's reference semantics for maps (aliasing,
    defensive copies) is visible: a `Heap` maps references (Nat) to map
    contents, and `alloc` / `set` / `del` model `make`, `m[k] = v` and
    `delete(m, k)`;
  * `checkDomain`, `Domains`, `NewProxy`, `handleCONNECT`, `handleHTTP`,
    `promptUser`, `stripPort`, `isAllowed` as pure functions over that
    heap, with external effects (the interactive prompt result, dial
    errors, hijack errors, upstream round-trip results) passed in as
    parameters and observable effects (whether a dial or an upstream
    round trip happened, which domains were prompted) returned as fields
    of the result;
  * the bidirectional tunnel block of the CONNECT handler as a static
    description of the spawned copy tasks and whether the handler joins
    them before returning.
-/

namespace Ddash

/-- The decision map content: domain -> decision token, absent = never seen. -/
abbrev DomainMap : Type := String → Option String

/-- A heap of mutable maps: Go map values live at references `0, 1, ...`;
`next` is the next fresh reference. -/
structure Heap where
  contents : Nat → DomainMap
  next : Nat

/-- Models Go `make(map[string]string)` followed by populating with `m`:
allocates a fresh reference holding contents `m`. -/
def Heap.alloc (h : Heap) (m : DomainMap) : Nat × Heap :=
  (h.next, ⟨fun r => if r = h.next then m else h.contents r, h.next + 1⟩)

/-- Models Go `m[k] = v` on the map at reference `r`. -/
def Heap.set (h : Heap) (r : Nat) (k v : String) : Heap :=
  ⟨fun r2 => if r2 = r then (fun k2 => if k2 = k then some v else h.contents r k2)
             else h.contents r2,
   h.next⟩

/-- Models Go `delete(m, k)` on the map at reference `r`. -/
def Heap.del (h : Heap) (r : Nat) (k : String) : Heap :=
  ⟨fun r2 => if r2 = r then (fun k2 => if k2 = k then none else h.contents r k2)
             else h.contents r2,
   h.next⟩

/-- isAllowed returns true if a decision means the connection should proceed
(source: `decision == "allow" || decision == "always"`). -/
def isAllowed (decision : String) : Bool :=
  decision == "allow" || decision == "always"

/-- Index of the last occurrence of `c` in `l` (Go stdlib `last` helper of
`net.SplitHostPort`). -/
def lastIndexOf (l : List Char) (c : Char) : Option Nat :=
  match l with
  | [] => none
  | x :: xs =>
    match lastIndexOf xs c with
    | some i => some (i + 1)
    | none => if x = c then some 0 else none

/-- Index of the first occurrence of `c` in `l` (Go stdlib `byteIndex`). -/
def indexOfChar (l : List Char) (c : Char) : Option Nat :=
  match l with
  | [] => none
  | x :: xs => if x = c then some 0 else (indexOfChar xs c).map (fun i => i + 1)

/-- Whether `c` occurs in `l`. -/
def containsChar (l : List Char) (c : Char) : Bool :=
  match l with
  | [] => false
  | x :: xs => x == c || containsChar xs c

/-- Embedding of Go `net.SplitHostPort`: `none` models the error return.
The port starts after the last colon; a leading `[` starts an IPv6 literal
whose closing `]` must sit just before that colon. -/
def splitHostPort (s : List Char) : Option (List Char × List Char) :=
  match lastIndexOf s ':' with
  | none => none
  | some i =>
    if s.headD ' ' = '[' then
      match indexOfChar s ']' with
      | none => none
      | some e =>
        if e + 1 = s.length then none
        else if e + 1 ≠ i then none
        else if containsChar (s.drop 1) '[' then none
        else if containsChar (s.drop (e + 1)) ']' then none
        else some ((s.drop 1).take (e - 1), s.drop (i + 1))
    else
      if containsChar (s.take i) ':' then none
      else if containsChar s '[' then none
      else if containsChar s ']' then none
      else some (s.take i, s.drop (i + 1))

/-- stripPort removes `:port` from a `host:port` string: on a successful
split it returns the host part, otherwise the input unchanged. -/
def stripPort (host : String) : String :=
  match splitHostPort host.data with
  | some hp => String.mk hp.1
  | none => host

/-- Whitespace as Go `unicode.IsSpace` sees it in the Latin-1 range:
space, tab, newline, vertical tab, form feed, carriage return, NEL and
non-breaking space. -/
def goIsSpace (c : Char) : Bool :=
  c == ' ' || c == '\t' || c == '\n' || c == Char.ofNat 11 ||
  c == Char.ofNat 12 || c == '\r' || c == Char.ofNat 133 || c == Char.ofNat 160

/-- Go `strings.TrimSpace` on a character list: drop whitespace from both
ends. -/
def trimSpaceChars (l : List Char) : List Char :=
  ((l.dropWhile goIsSpace).reverse.dropWhile goIsSpace).reverse

/-- Go `strings.TrimSpace(strings.ToLower(line))`: lower-case every
character, then trim surrounding whitespace. -/
def lowerTrim (line : String) : String :=
  String.mk (trimSpaceChars (line.data.map Char.toLower))

/-- Embedding of the response-line parsing inside promptUser: the read line
is lower-cased, trimmed, then matched against the four token pairs, with
every other input treated as deny. -/
def parseDecision (line : String) : String :=
  let l := lowerTrim line
  if l = "a" ∨ l = "allow" then "allow"
  else if l = "d" ∨ l = "deny" then "deny"
  else if l = "l" ∨ l = "always" then "always"
  else if l = "n" ∨ l = "never" then "never"
  else "deny"

/-- promptUser: `channel = none` models failure to open /dev/tty (the
handler prints a diagnostic to stderr and returns "deny" without an
error); `channel = some line` models a successful read of `line` from
the control channel. The `domain` argument only feeds the prompt text. -/
def promptUser (channel : Option String) (domain : String) : String :=
  match channel with
  | none => "deny"
  | some line =>
    let _ := domain
    parseDecision line

/-- Result of checkDomain: the decision, the heap after the call, and the
list of domains for which the interactive resolver was invoked. -/
structure CheckResult where
  decision : String
  heap : Heap
  prompts : List String

/-- checkDomain on the map at reference `r`: return the recorded decision
if present, otherwise invoke the resolver (`prompt`, standing for the
method call `p.promptUser`) once, record its answer and return it. -/
def checkDomain (h : Heap) (r : Nat) (prompt : String → String)
    (domain : String) : CheckResult :=
  match h.contents r domain with
  | some dec => ⟨dec, h, []⟩
  | none =>
    let dec := prompt domain
    ⟨dec, h.set r domain dec, [domain]⟩

/-- Domains returns a copy of the current domain decisions map: a fresh
map is allocated and every entry of the map at `r` is copied into it, so
the new reference holds the same contents the proxy's map has now. -/
def Domains (h : Heap) (r : Nat) : Nat × Heap :=
  h.alloc (h.contents r)

/-- NewProxy: `listenOk = false` models `net.Listen` failing, in which
case no proxy is constructed; otherwise a fresh decisions map is
allocated and the entries of the seed map at `seed` are copied into it. -/
def NewProxy (h : Heap) (seed : Nat) (listenOk : Bool) : Option (Nat × Heap) :=
  if listenOk then some (h.alloc (h.contents seed)) else none

/-- Operations performed by a spawned tunnel copy task, in order. -/
inductive TunnelOp where
  | copyClientToTarget
  | copyTargetToClient
  | closeTargetConn
  | closeClientConn
deriving DecidableEq, Repr

/-- Static description of the tunnel block of the CONNECT handler: the
bodies of the spawned tasks, and whether the handler joins (waits for)
those tasks before returning. -/
structure TunnelPhase where
  spawned : List (List TunnelOp)
  joinsBeforeReturn : Bool
deriving DecidableEq, Repr

/-- The tunnel block as written in the source: two `go` statements, each
copying one direction and then closing the connection it wrote to, and
`handleCONNECT` returning immediately afterwards with no join or wait on
either task. -/
def connectTunnelPhase : TunnelPhase :=
  ⟨[[TunnelOp.copyClientToTarget, TunnelOp.closeTargetConn],
    [TunnelOp.copyTargetToClient, TunnelOp.closeClientConn]],
   false⟩

/-- How many times `op` occurs across all spawned task bodies. -/
def countOp (op : TunnelOp) (p : TunnelPhase) : Nat :=
  (p.spawned.map (fun t => (t.filter (fun o => o == op)).length)).foldl Nat.add 0

/-- Outcome of handleCONNECT, as observed by the client. -/
inductive ConnectOutcome where
  | blocked (status : Nat) (body : String)
  | dialFailed (status : Nat) (body : String)
  | hijackUnsupported (status : Nat) (body : String)
  | hijackFailed (status : Nat) (body : String)
  | established (tunnel : TunnelPhase)
deriving DecidableEq, Repr

/-- Result of handleCONNECT: the client-visible outcome, the heap after
the call, the domains prompted, whether `net.Dial` was invoked, and
whether a tunnel was set up. -/
structure ConnectResult where
  outcome : ConnectOutcome
  heap : Heap
  prompts : List String
  dialed : Bool
  tunneled : Bool

/-- handleCONNECT: strip the port from the request host, resolve the
domain, answer 403 without dialing when not allowed; otherwise dial
(`dialErr = some e` models a failed dial, answered 502), hijack the
client connection (failure paths answer 500), and finally start the
bidirectional tunnel. -/
def handleCONNECT (h : Heap) (r : Nat) (prompt : String → String)
    (host : String) (dialErr : Option String) (hijackOk : Bool)
    (hijackErr : Option String) : ConnectResult :=
  let domain := stripPort host
  let c := checkDomain h r prompt domain
  if !(isAllowed c.decision) then
    ⟨ConnectOutcome.blocked 403 "ddash: connection blocked", c.heap, c.prompts,
     false, false⟩
  else
    match dialErr with
    | some e =>
      ⟨ConnectOutcome.dialFailed 502
         ("ddash: failed to connect to " ++ host ++ ": " ++ e),
       c.heap, c.prompts, true, false⟩
    | none =>
      if !hijackOk then
        ⟨ConnectOutcome.hijackUnsupported 500 "ddash: hijacking not supported",
         c.heap, c.prompts, true, false⟩
      else
        match hijackErr with
        | some e =>
          ⟨ConnectOutcome.hijackFailed 500 ("ddash: hijack failed: " ++ e),
           c.heap, c.prompts, true, false⟩
        | none =>
          ⟨ConnectOutcome.established connectTunnelPhase, c.heap, c.prompts,
           true, true⟩

/-- An upstream HTTP response, copied back verbatim by the forwarder. -/
structure UpstreamResp where
  statusCode : Nat
  headers : List (String × String)
  body : String
deriving DecidableEq, Repr

/-- Outcome of handleHTTP, as observed by the client. -/
inductive HttpOutcome where
  | blocked (status : Nat) (body : String)
  | badRequest (status : Nat) (body : String)
  | upstreamFailed (status : Nat) (body : String)
  | forwarded (resp : UpstreamResp)
deriving DecidableEq, Repr

/-- Result of handleHTTP: the client-visible outcome, the heap after the
call, the domains prompted, and whether the request was forwarded
upstream (whether `RoundTrip` was invoked). -/
structure HttpResult where
  outcome : HttpOutcome
  heap : Heap
  prompts : List String
  roundTripped : Bool

/-- handleHTTP: strip the port from the request host, resolve the domain,
answer 403 without forwarding when not allowed; otherwise build the
outbound request (`reqErr = some e` models `http.NewRequest` failing,
answered 400), perform the round trip (`rt = Except.error e` models a
failed round trip, answered 502), and on success copy status, headers
and body back. -/
def handleHTTP (h : Heap) (r : Nat) (prompt : String → String)
    (host : String) (reqErr : Option String)
    (rt : Except String UpstreamResp) : HttpResult :=
  let domain := stripPort host
  let c := checkDomain h r prompt domain
  if !(isAllowed c.decision) then
    ⟨HttpOutcome.blocked 403 "ddash: connection blocked", c.heap, c.prompts,
     false⟩
  else
    match reqErr with
    | some e =>
      ⟨HttpOutcome.badRequest 400 ("ddash: bad request: " ++ e), c.heap,
       c.prompts, false⟩
    | none =>
      match rt with
      | Except.error e =>
        ⟨HttpOutcome.upstreamFailed 502 ("ddash: upstream error: " ++ e),
         c.heap, c.prompts, true⟩
      | Except.ok resp =>
        ⟨HttpOutcome.forwarded resp, c.heap, c.prompts, true⟩

/-- The proxy reference produced by a successful NewProxy call. -/
def newRef (h : Heap) (seed : Nat) : Nat :=
  ((NewProxy h seed true).getD (0, h)).1

/-- The heap after a successful NewProxy call. -/
def newHeap (h : Heap) (seed : Nat) : Heap :=
  ((NewProxy h seed true).getD (0, h)).2

/-- A resolver that answers "always" to every prompt, used as a concrete
instantiation in witnesses. -/
def promptAlways : String → String := fun d =>
  let _ := d
  "always"

/-- A concrete seed map: example.com is allowed, evil.example denied. -/
def seedMap : DomainMap := fun k =>
  if k = "example.com" then some "allow"
  else if k = "evil.example" then some "deny"
  else none

/-- The everywhere-empty map. -/
def emptyMap : DomainMap := fun k =>
  let _ := k
  none

/-- A concrete heap: reference 0 holds the seed map; 1 is the next free
reference. -/
def seedHeap : Heap :=
  ⟨fun r => if r = 0 then seedMap else emptyMap, 1⟩

/-- Helper: checkDomain never changes or removes an entry already present
in the map at `r`: only an absent key is ever written. -/
theorem checkDomain_preserves_entry (h : Heap) (r : Nat)
    (prompt : String → String) (d0 v d : String)
    (hv : h.contents r d0 = some v) :
    (checkDomain h r prompt d).heap.contents r d0 = some v := by
  unfold checkDomain
  cases hcd : h.contents r d with
  | some dec => exact hv
  | none =>
    show (h.set r d (prompt d)).contents r d0 = some v
    rcases eq_or_ne d0 d with he | he
    · subst he
      rw [hv] at hcd
      cases hcd
    · simpa [Heap.set, he] using hv

/-- Helper: the heap handleCONNECT leaves behind is exactly the heap its
checkDomain call leaves behind; no branch of the handler writes to it. -/
theorem handleCONNECT_heap_eq (h : Heap) (r : Nat) (prompt : String → String)
    (host : String) (dialErr : Option String) (hijackOk : Bool)
    (hijackErr : Option String) :
    (handleCONNECT h r prompt host dialErr hijackOk hijackErr).heap
      = (checkDomain h r prompt (stripPort host)).heap := by
  cases dialErr <;> cases hijackErr <;> cases hijackOk <;>
    simp only [handleCONNECT] <;> split <;> rfl

/-- Helper: the heap handleHTTP leaves behind is exactly the heap its
checkDomain call leaves behind; no branch of the handler writes to it. -/
theorem handleHTTP_heap_eq (h : Heap) (r : Nat) (prompt : String → String)
    (host : String) (reqErr : Option String)
    (rt : Except String UpstreamResp) :
    (handleHTTP h r prompt host reqErr rt).heap
      = (checkDomain h r prompt (stripPort host)).heap := by
  cases reqErr <;> cases rt <;>
    simp only [handleHTTP] <;> split <;> rfl

/-- C5: once a decision entry exists in the proxy's map — seeded or
recorded — no proxy operation (checkDomain, Domains, handleHTTP,
handleCONNECT) ever changes or removes it, and resolving that domain
again prompts nobody and returns that same decision. -/
theorem recorded_decision_immutable (h : Heap) (r : Nat)
    (prompt : String → String) (d0 v d host : String)
    (dialErr : Option String) (hijackOk : Bool) (hijackErr : Option String)
    (reqErr : Option String) (rt : Except String UpstreamResp)
    (hr : r < h.next) (hv : h.contents r d0 = some v) :
    (checkDomain h r prompt d0).decision = v ∧
    (checkDomain h r prompt d0).prompts = [] ∧
    (checkDomain h r prompt d).heap.contents r d0 = some v ∧
    (Domains h r).2.contents r d0 = some v ∧
    (handleCONNECT h r prompt host dialErr hijackOk hijackErr).heap.contents
      r d0 = some v ∧
    (handleHTTP h r prompt host reqErr rt).heap.contents r d0 = some v := by
  refine ⟨?_, ?_, ?_, ?_, ?_, ?_⟩
  · simp [checkDomain, hv]
  · simp [checkDomain, hv]
  · exact checkDomain_preserves_entry h r prompt d0 v d hv
  · simpa [Domains, Heap.alloc, Nat.ne_of_lt hr] using hv
  · rw [handleCONNECT_heap_eq]
    exact checkDomain_preserves_entry h r prompt d0 v (stripPort host) hv
  · rw [handleHTTP_heap_eq]
    exact checkDomain_preserves_entry h r prompt d0 v (stripPort host) hv

/-- Witness for C5 on the concrete seed heap: the seeded entry for
example.com survives a resolving call for fresh.example, a snapshot, and
both handlers. -/
theorem recorded_decision_immutable_witness :
    (0 < seedHeap.next) ∧
    (seedHeap.contents 0 "example.com" = some "allow") ∧
    ((checkDomain seedHeap 0 promptAlways "example.com").decision = "allow" ∧
     (checkDomain seedHeap 0 promptAlways "example.com").prompts = [] ∧
     (checkDomain seedHeap 0 promptAlways "fresh.example").heap.contents 0
       "example.com" = some "allow" ∧
     (Domains seedHeap 0).2.contents 0 "example.com" = some "allow" ∧
     (handleCONNECT seedHeap 0 promptAlways "fresh.example:443" none true
       none).heap.contents 0 "example.com" = some "allow" ∧
     (handleHTTP seedHeap 0 promptAlways "fresh.example:443" none
       (Except.error "refused")).heap.contents 0 "example.com"
       = some "allow") :=
  ⟨by decide, by decide,
   recorded_decision_immutable seedHeap 0 promptAlways "example.com" "allow"
     "fresh.example" "fresh.example:443" none true none none
     (Except.error "refused") (by decide) (by decide)⟩

/-- C4: isAllowed is true exactly for "allow" and "always", false for
"deny", "never", the empty string, and every other string, so every
unrecognized token is treated identically to deny by this gate
predicate. -/
theorem isAllowed_gate_spec (s : String) :
    isAllowed "allow" = true ∧ isAllowed "always" = true ∧
    isAllowed "deny" = false ∧ isAllowed "never" = false ∧
    isAllowed "" = false ∧
    (isAllowed s = true ↔ (s = "allow" ∨ s = "always")) := by
  refine ⟨rfl, rfl, rfl, rfl, rfl, ?_⟩
  constructor
  · intro hs
    simpa [isAllowed] using hs
  · rintro (rfl | rfl) <;> rfl

/-- Witness for C4 at the concrete unrecognized token "maybe". -/
theorem isAllowed_gate_spec_witness :
    isAllowed "maybe" = true ↔ ("maybe" = "allow" ∨ "maybe" = "always") :=
  (isAllowed_gate_spec "maybe").2.2.2.2.2

/-- C7: stripPort strips any :port suffix and removes IPv6 literal
brackets, and a host with no port is returned unchanged, on the four
specified inputs. -/
theorem stripPort_behavior :
    stripPort "example.com:443" = "example.com" ∧
    stripPort "127.0.0.1:8080" = "127.0.0.1" ∧
    stripPort "example.com" = "example.com" ∧
    stripPort "[::1]:443" = "::1" := by
  refine ⟨?_, ?_, ?_, ?_⟩ <;> decide

/-- C3: promptUser fails safe. With no control channel it returns "deny"
without an error; with input, the line is lower-cased and trimmed, "a"
maps to allow, "d" to deny, "l" to always, "n" to never, and any input
matching no known token — the empty string included — yields "deny",
so unknown input never yields an allowing decision. -/
theorem promptUser_fail_safe (d line : String)
    (h1 : lowerTrim line ≠ "a") (h2 : lowerTrim line ≠ "allow")
    (h3 : lowerTrim line ≠ "d") (h4 : lowerTrim line ≠ "deny")
    (h5 : lowerTrim line ≠ "l") (h6 : lowerTrim line ≠ "always")
    (h7 : lowerTrim line ≠ "n") (h8 : lowerTrim line ≠ "never") :
    promptUser none d = "deny" ∧
    promptUser (some "a") d = "allow" ∧
    promptUser (some "d") d = "deny" ∧
    promptUser (some "l") d = "always" ∧
    promptUser (some "n") d = "never" ∧
    promptUser (some "") d = "deny" ∧
    promptUser (some line) d = "deny" ∧
    isAllowed (promptUser (some line) d) = false := by
  refine ⟨rfl, rfl, rfl, rfl, rfl, rfl, ?_, ?_⟩ <;>
    simp [promptUser, parseDecision, h1, h2, h3, h4, h5, h6, h7, h8, isAllowed]

/-- Witness for C3 at the concrete unknown input "yes  ". -/
theorem promptUser_fail_safe_witness :
    (lowerTrim "yes  " ≠ "a") ∧
    (promptUser none "example.com" = "deny" ∧
     promptUser (some "a") "example.com" = "allow" ∧
     promptUser (some "d") "example.com" = "deny" ∧
     promptUser (some "l") "example.com" = "always" ∧
     promptUser (some "n") "example.com" = "never" ∧
     promptUser (some "") "example.com" = "deny" ∧
     promptUser (some "yes  ") "example.com" = "deny" ∧
     isAllowed (promptUser (some "yes  ") "example.com") = false) :=
  ⟨by decide,
   promptUser_fail_safe "example.com" "yes  " (by decide) (by decide)
     (by decide) (by decide) (by decide) (by decide) (by decide) (by decide)⟩

/-- C9 counterexample: the tunnel block of the CONNECT handler does not
join or wait on the two spawned copy tasks before the handler returns,
refuting the claimed join/wait tracking of the copy directions. -/
theorem connect_tunnel_no_join :
    ¬ (connectTunnelPhase.joinsBeforeReturn = true) := by
  decide

/-- C9 amended: for a permitted CONNECT with successful dial and hijack
the handler establishes the tunnel by spawning the two copy directions as
untracked background tasks and returns without joining or waiting on
them; each task, when its copy completes, closes the socket it was
writing to, so the outbound and the inbound socket are each closed
exactly once. -/
theorem connect_tunnel_untracked (h : Heap) (r : Nat)
    (prompt : String → String) (host : String)
    (ha : isAllowed ((checkDomain h r prompt (stripPort host)).decision)
            = true) :
    (handleCONNECT h r prompt host none true none).outcome
      = ConnectOutcome.established connectTunnelPhase ∧
    (handleCONNECT h r prompt host none true none).tunneled = true ∧
    connectTunnelPhase.joinsBeforeReturn = false ∧
    connectTunnelPhase.spawned.length = 2 ∧
    connectTunnelPhase.spawned.get? 0
      = some [TunnelOp.copyClientToTarget, TunnelOp.closeTargetConn] ∧
    connectTunnelPhase.spawned.get? 1
      = some [TunnelOp.copyTargetToClient, TunnelOp.closeClientConn] ∧
    countOp TunnelOp.closeTargetConn connectTunnelPhase = 1 ∧
    countOp TunnelOp.closeClientConn connectTunnelPhase = 1 := by
  refine ⟨?_, ?_, by decide, by decide, by decide, by decide, by decide,
    by decide⟩ <;> simp [handleCONNECT, ha]

/-- Witness for the amended C9 on the concrete seed heap at the allowed
domain example.com. -/
theorem connect_tunnel_untracked_witness :
    (isAllowed ((checkDomain seedHeap 0 promptAlways
        (stripPort "example.com:443")).decision) = true) ∧
    ((handleCONNECT seedHeap 0 promptAlways "example.com:443" none true
        none).outcome = ConnectOutcome.established connectTunnelPhase ∧
     (handleCONNECT seedHeap 0 promptAlways "example.com:443" none true
        none).tunneled = true ∧
     connectTunnelPhase.joinsBeforeReturn = false ∧
     connectTunnelPhase.spawned.length = 2 ∧
     connectTunnelPhase.spawned.get? 0
       = some [TunnelOp.copyClientToTarget, TunnelOp.closeTargetConn] ∧
     connectTunnelPhase.spawned.get? 1
       = some [TunnelOp.copyTargetToClient, TunnelOp.closeClientConn] ∧
     countOp TunnelOp.closeTargetConn connectTunnelPhase = 1 ∧
     countOp TunnelOp.closeClientConn connectTunnelPhase = 1) :=
  ⟨by decide,
   connect_tunnel_untracked seedHeap 0 promptAlways "example.com:443"
     (by decide)⟩

/-- C2: a cached domain is answered from the store with no prompt and no
store change; an absent domain triggers exactly one prompt, whose answer
is recorded and returned, so a second call for that domain is answered
from the cache with zero further prompts. -/
theorem checkDomain_resolution_semantics (h : Heap) (r : Nat)
    (prompt : String → String) (d1 d2 v : String)
    (hsome : h.contents r d1 = some v) (hnone : h.contents r d2 = none) :
    (checkDomain h r prompt d1).decision = v ∧
    (checkDomain h r prompt d1).heap = h ∧
    (checkDomain h r prompt d1).prompts = [] ∧
    (checkDomain h r prompt d2).decision = prompt d2 ∧
    (checkDomain h r prompt d2).prompts = [d2] ∧
    (checkDomain h r prompt d2).heap.contents r d2 = some (prompt d2) ∧
    (checkDomain (checkDomain h r prompt d2).heap r prompt d2).decision
      = prompt d2 ∧
    (checkDomain (checkDomain h r prompt d2).heap r prompt d2).prompts
      = [] := by
  refine ⟨?_, ?_, ?_, ?_, ?_, ?_, ?_, ?_⟩ <;>
    simp [checkDomain, hsome, hnone, Heap.set]

/-- Witness for C2 on the concrete seed heap: example.com is cached as
allow; fresh.example is absent and resolved through the prompt. -/
theorem checkDomain_resolution_semantics_witness :
    (seedHeap.contents 0 "example.com" = some "allow") ∧
    (seedHeap.contents 0 "fresh.example" = none) ∧
    ((checkDomain seedHeap 0 promptAlways "example.com").decision = "allow" ∧
     (checkDomain seedHeap 0 promptAlways "example.com").heap = seedHeap ∧
     (checkDomain seedHeap 0 promptAlways "example.com").prompts = [] ∧
     (checkDomain seedHeap 0 promptAlways "fresh.example").decision
       = promptAlways "fresh.example" ∧
     (checkDomain seedHeap 0 promptAlways "fresh.example").prompts
       = ["fresh.example"] ∧
     (checkDomain seedHeap 0 promptAlways "fresh.example").heap.contents 0
       "fresh.example" = some (promptAlways "fresh.example") ∧
     (checkDomain (checkDomain seedHeap 0 promptAlways "fresh.example").heap 0
       promptAlways "fresh.example").decision = promptAlways "fresh.example" ∧
     (checkDomain (checkDomain seedHeap 0 promptAlways "fresh.example").heap 0
       promptAlways "fresh.example").prompts = []) :=
  ⟨by decide, by decide,
   checkDomain_resolution_semantics seedHeap 0 promptAlways "example.com"
     "fresh.example" "allow" (by decide) (by decide)⟩

/-- C1: a request whose domain resolves to a non-allowing decision is
answered 403 with the short plaintext body "ddash: connection blocked";
the CONNECT handler never dials and never tunnels, and the HTTP handler
never forwards the request upstream. -/
theorem denied_request_403_no_contact (h : Heap) (r : Nat)
    (prompt : String → String) (host : String) (dialErr : Option String)
    (hijackOk : Bool) (hijackErr : Option String) (reqErr : Option String)
    (rt : Except String UpstreamResp)
    (hd : isAllowed ((checkDomain h r prompt (stripPort host)).decision)
            = false) :
    (handleCONNECT h r prompt host dialErr hijackOk hijackErr).outcome
      = ConnectOutcome.blocked 403 "ddash: connection blocked" ∧
    (handleCONNECT h r prompt host dialErr hijackOk hijackErr).dialed
      = false ∧
    (handleCONNECT h r prompt host dialErr hijackOk hijackErr).tunneled
      = false ∧
    (handleHTTP h r prompt host reqErr rt).outcome
      = HttpOutcome.blocked 403 "ddash: connection blocked" ∧
    (handleHTTP h r prompt host reqErr rt).roundTripped = false := by
  refine ⟨?_, ?_, ?_, ?_, ?_⟩ <;> simp [handleCONNECT, handleHTTP, hd]

/-- Witness for C1 on the concrete seed heap at the denied domain
evil.example, reached as evil.example:443. -/
theorem denied_request_403_no_contact_witness :
    (isAllowed ((checkDomain seedHeap 0 promptAlways
        (stripPort "evil.example:443")).decision) = false) ∧
    ((handleCONNECT seedHeap 0 promptAlways "evil.example:443" none true
        none).outcome
       = ConnectOutcome.blocked 403 "ddash: connection blocked" ∧
     (handleCONNECT seedHeap 0 promptAlways "evil.example:443" none true
        none).dialed = false ∧
     (handleCONNECT seedHeap 0 promptAlways "evil.example:443" none true
        none).tunneled = false ∧
     (handleHTTP seedHeap 0 promptAlways "evil.example:443" none
        (Except.error "refused")).outcome
       = HttpOutcome.blocked 403 "ddash: connection blocked" ∧
     (handleHTTP seedHeap 0 promptAlways "evil.example:443" none
        (Except.error "refused")).roundTripped = false) :=
  ⟨by decide,
   denied_request_403_no_contact seedHeap 0 promptAlways "evil.example:443"
     none true none none (Except.error "refused") (by decide)⟩

/-- C8: for a permitted request whose destination is unreachable the client
receives 502 with the underlying error in the body: a failed CONNECT dial
yields 502 and no tunnel, and a failed plain-HTTP round trip yields 502
with the upstream error. -/
theorem unreachable_destination_502 (h : Heap) (r : Nat)
    (prompt : String → String) (host : String) (hijackOk : Bool)
    (hijackErr : Option String) (e1 e2 : String)
    (ha : isAllowed ((checkDomain h r prompt (stripPort host)).decision)
            = true) :
    (handleCONNECT h r prompt host (some e1) hijackOk hijackErr).outcome
      = ConnectOutcome.dialFailed 502
          ("ddash: failed to connect to " ++ host ++ ": " ++ e1) ∧
    (handleCONNECT h r prompt host (some e1) hijackOk hijackErr).tunneled
      = false ∧
    (handleHTTP h r prompt host none (Except.error e2)).outcome
      = HttpOutcome.upstreamFailed 502 ("ddash: upstream error: " ++ e2) := by
  refine ⟨?_, ?_, ?_⟩ <;> simp [handleCONNECT, handleHTTP, ha]

/-- Witness for C8 on the concrete seed heap at the allowed domain
example.com with a concrete dial error and upstream error. -/
theorem unreachable_destination_502_witness :
    (isAllowed ((checkDomain seedHeap 0 promptAlways
        (stripPort "example.com:443")).decision) = true) ∧
    ((handleCONNECT seedHeap 0 promptAlways "example.com:443"
        (some "refused") true none).outcome
       = ConnectOutcome.dialFailed 502
           ("ddash: failed to connect to " ++ "example.com:443" ++ ": "
             ++ "refused") ∧
     (handleCONNECT seedHeap 0 promptAlways "example.com:443"
        (some "refused") true none).tunneled = false ∧
     (handleHTTP seedHeap 0 promptAlways "example.com:443" none
        (Except.error "timeout")).outcome
       = HttpOutcome.upstreamFailed 502
           ("ddash: upstream error: " ++ "timeout")) :=
  ⟨by decide,
   unreachable_destination_502 seedHeap 0 promptAlways "example.com:443"
     true none "refused" "timeout" (by decide)⟩

/-- C6: Domains returns a defensive copy: the snapshot lives at a fresh
reference holding the same entries, and writing to or deleting from the
snapshot never affects the proxy's internal map, a subsequent snapshot,
or a later gating decision. -/
theorem domains_snapshot_defensive_copy (h : Heap) (r : Nat)
    (prompt : String → String) (k v d k2 : String) (hr : r < h.next) :
    (Domains h r).1 ≠ r ∧
    (Domains h r).2.contents (Domains h r).1 k2 = h.contents r k2 ∧
    ((Domains h r).2.set (Domains h r).1 k v).contents r k2
      = h.contents r k2 ∧
    ((Domains h r).2.del (Domains h r).1 k).contents r k2
      = h.contents r k2 ∧
    (Domains ((Domains h r).2.set (Domains h r).1 k v) r).2.contents
      (Domains ((Domains h r).2.set (Domains h r).1 k v) r).1 k2
      = h.contents r k2 ∧
    (checkDomain ((Domains h r).2.set (Domains h r).1 k v) r prompt
        d).decision
      = (checkDomain h r prompt d).decision := by
  have hne : r ≠ h.next := Nat.ne_of_lt hr
  refine ⟨?_, ?_, ?_, ?_, ?_, ?_⟩
  · simp only [Domains, Heap.alloc]
    omega
  · simp [Domains, Heap.alloc]
  · simp [Domains, Heap.alloc, Heap.set, hne]
  · simp [Domains, Heap.alloc, Heap.del, hne]
  · simp [Domains, Heap.alloc, Heap.set, hne]
  · have hc : ((Domains h r).2.set (Domains h r).1 k v).contents r d
        = h.contents r d := by
      simp [Domains, Heap.alloc, Heap.set, hne]
    unfold checkDomain
    rw [hc]
    rcases h.contents r d with _ | dec <;> rfl

/-- Witness for C6 on the concrete seed heap: overwriting example.com in
the snapshot leaves the proxy's entry, the next snapshot, and gating for
example.com unchanged. -/
theorem domains_snapshot_defensive_copy_witness :
    (0 < seedHeap.next) ∧
    ((Domains seedHeap 0).1 ≠ 0 ∧
     (Domains seedHeap 0).2.contents (Domains seedHeap 0).1 "example.com"
       = seedHeap.contents 0 "example.com" ∧
     ((Domains seedHeap 0).2.set (Domains seedHeap 0).1 "example.com"
       "never").contents 0 "example.com"
       = seedHeap.contents 0 "example.com" ∧
     ((Domains seedHeap 0).2.del (Domains seedHeap 0).1
       "example.com").contents 0 "example.com"
       = seedHeap.contents 0 "example.com" ∧
     (Domains ((Domains seedHeap 0).2.set (Domains seedHeap 0).1
       "example.com" "never") 0).2.contents
       (Domains ((Domains seedHeap 0).2.set (Domains seedHeap 0).1
         "example.com" "never") 0).1 "example.com"
       = seedHeap.contents 0 "example.com" ∧
     (checkDomain ((Domains seedHeap 0).2.set (Domains seedHeap 0).1
         "example.com" "never") 0 promptAlways "example.com").decision
       = (checkDomain seedHeap 0 promptAlways "example.com").decision) :=
  ⟨by decide,
   domains_snapshot_defensive_copy seedHeap 0 promptAlways "example.com"
     "never" "example.com" "example.com" (by decide)⟩

/-- C10: NewProxy copies the seed mapping into a fresh map: the proxy's
map lives at a new reference holding the seed's entries, and writing to
or deleting from the seed afterwards never affects the proxy's entries,
its gating decisions, or a later Domains snapshot. -/
theorem newProxy_copies_seed (h : Heap) (seed : Nat)
    (prompt : String → String) (k v d k2 : String) (hs : seed < h.next) :
    NewProxy h seed false = none ∧
    newRef h seed ≠ seed ∧
    (newHeap h seed).contents (newRef h seed) k2 = h.contents seed k2 ∧
    ((newHeap h seed).set seed k v).contents (newRef h seed) k2
      = h.contents seed k2 ∧
    ((newHeap h seed).del seed k).contents (newRef h seed) k2
      = h.contents seed k2 ∧
    (checkDomain ((newHeap h seed).set seed k v) (newRef h seed) prompt
        d).decision
      = (checkDomain (newHeap h seed) (newRef h seed) prompt d).decision ∧
    (Domains ((newHeap h seed).set seed k v) (newRef h seed)).2.contents
      (Domains ((newHeap h seed).set seed k v) (newRef h seed)).1 k2
      = h.contents seed k2 := by
  have hne : seed ≠ h.next := Nat.ne_of_lt hs
  refine ⟨rfl, ?_, ?_, ?_, ?_, ?_, ?_⟩
  · have hnr : newRef h seed = h.next := by
      simp [newRef, NewProxy, Heap.alloc]
    rw [hnr]
    omega
  · simp [newRef, newHeap, NewProxy, Heap.alloc]
  · simp [newRef, newHeap, NewProxy, Heap.alloc, Heap.set, hne, Ne.symm hne]
  · simp [newRef, newHeap, NewProxy, Heap.alloc, Heap.del, hne, Ne.symm hne]
  · have hc : ((newHeap h seed).set seed k v).contents (newRef h seed) d
        = (newHeap h seed).contents (newRef h seed) d := by
      simp [newRef, newHeap, NewProxy, Heap.alloc, Heap.set, hne, Ne.symm hne]
    unfold checkDomain
    rw [hc]
    rcases (newHeap h seed).contents (newRef h seed) d with _ | dec <;> rfl
  · simp [newRef, newHeap, NewProxy, Domains, Heap.alloc, Heap.set, hne,
      Ne.symm hne]

/-- Witness for C10 on the concrete seed heap: overwriting example.com in
the seed after construction leaves the proxy's entry, its gating, and
its snapshots unchanged. -/
theorem newProxy_copies_seed_witness :
    (0 < seedHeap.next) ∧
    (NewProxy seedHeap 0 false = none ∧
     newRef seedHeap 0 ≠ 0 ∧
     (newHeap seedHeap 0).contents (newRef seedHeap 0) "example.com"
       = seedHeap.contents 0 "example.com" ∧
     ((newHeap seedHeap 0).set 0 "example.com" "never").contents
       (newRef seedHeap 0) "example.com"
       = seedHeap.contents 0 "example.com" ∧
     ((newHeap seedHeap 0).del 0 "example.com").contents
       (newRef seedHeap 0) "example.com"
       = seedHeap.contents 0 "example.com" ∧
     (checkDomain ((newHeap seedHeap 0).set 0 "example.com" "never")
         (newRef seedHeap 0) promptAlways "example.com").decision
       = (checkDomain (newHeap seedHeap 0) (newRef seedHeap 0) promptAlways
           "example.com").decision ∧
     (Domains ((newHeap seedHeap 0).set 0 "example.com" "never")
         (newRef seedHeap 0)).2.contents
       (Domains ((newHeap seedHeap 0).set 0 "example.com" "never")
         (newRef seedHeap 0)).1 "example.com"
       = seedHeap.contents 0 "example.com") :=
  ⟨by decide,
   newProxy_copies_seed seedHeap 0 promptAlways "example.com" "never"
     "example.com" "example.com" (by decide)⟩

end Ddash
